import Mathlib

/-!
Shallow embedding of the Flask proxy in `app.py`: the internal auth gate
(`_check_internal_auth`), the parameter-mapping block of the `/api/generate`
handler, and the handler itself, which forwards to an upstream
generative-language provider modelled as an oracle function.

Modelling conventions:
* Environment strings (`GOOGLE_API_KEY`, `INTERNAL_API_KEY`) are modelled as
  `String`, with `""` standing for "unset" — this matches Python truthiness,
  where both `None` and the empty string fail an `if not KEY` test.
* A request body is `Option (List (String × JValue))`: `none` models a body
  that `request.get_json(silent=True)` turns into `None` (absent or
  unparseable), `some kvs` a body that parses to a JSON object.  Bodies that
  parse to non-object JSON are outside the model (the handler would raise on
  them before producing a JSON response).
* Field extractions that Python follows with a string method (`.strip()`) or
  dict membership tests return `Option`: `none` marks a request whose field
  has a type on which Python would raise, and the handler embedding
  propagates that as `Option.none` ("outside the model").
* The upstream call `model.generate_content(...)` is an oracle
  `UpstreamCall → UpstreamResult`; the handler returns the call it made (if
  any) alongside the response, so that "the provider was (not) invoked with
  inputs X" is expressible.
-/

namespace OpenTale

/-- JSON values, as produced by parsing a request body. -/
inductive JValue : Type where
  | null : JValue
  | bool : Bool → JValue
  | num : ℚ → JValue
  | str : String → JValue
  | arr : List JValue → JValue
  | obj : List (String × JValue) → JValue

/-- Python truthiness of a JSON value (`bool(x)` on the parsed value). -/
def jTruthy : JValue → Bool
  | .null => false
  | .bool b => b
  | .num q => decide (q ≠ 0)
  | .str s => decide (s ≠ "")
  | .arr xs => !xs.isEmpty
  | .obj kvs => !kvs.isEmpty

/-- Python `x is None` on a parsed JSON value. -/
def isNull : JValue → Bool
  | .null => true
  | _ => false

/-- Dictionary lookup, `d.get(k)` / `k in d` on a JSON object. -/
def jlookup : List (String × JValue) → String → Option JValue
  | [], _ => none
  | (k, v) :: rest, key => if k = key then some v else jlookup rest key

/-- Python `x or d` where `x` is `d.get(k)` (absent or falsy falls back). -/
def pyOr (v : Option JValue) (d : JValue) : JValue :=
  match v with
  | some x => if jTruthy x then x else d
  | none => d

/-- Python `a or b` on optional strings (`None` and `""` are falsy). -/
def pyOrS (a b : Option String) : Option String :=
  match a with
  | some s => if s = "" then b else some s
  | none => b

/-- An HTTP response: a status code and a JSON body. -/
structure Response : Type where
  status : Nat
  body : JValue

/-- The parts of an inbound Flask `request` the handlers consult. -/
structure Request : Type where
  method : String
  path : String
  authorizationHeader : Option String
  xApiKeyHeader : Option String
  queryApiKey : Option String
  body : Option (List (String × JValue))

/-- Environment-derived configuration (`""` = the variable is unset). -/
structure Config : Type where
  googleApiKey : String
  internalApiKey : String

/-- Line 38: `req.get_json(silent=True) or {}` — absent/unparseable bodies
become the empty object (an empty object is falsy, so `or {}` is the
identity on object bodies modulo that fixed point). -/
def bodyDict (b : Option (List (String × JValue))) : List (String × JValue) :=
  b.getD []

/-- Lines 34–35: the bearer token of the `Authorization` header, if the
header (defaulted to `""`) starts with `"Bearer "`. -/
def bearerOf (req : Request) : Option String :=
  let h := req.authorizationHeader.getD ""
  if h.toList.take 7 = "Bearer ".toList then some ⟨h.toList.drop 7⟩ else none

/-- Lines 38–39: the `api_key` field of the JSON body, when it is a string. -/
def bodyKeyOf (req : Request) : Option String :=
  match jlookup (bodyDict req.body) "api_key" with
  | some (JValue.str s) => some s
  | _ => none

/-- Line 41: `provided = bearer or x_api_key or query_key or body_key`. -/
def providedOf (req : Request) : Option String :=
  pyOrS (bearerOf req) (pyOrS req.xApiKeyHeader (pyOrS req.queryApiKey (bodyKeyOf req)))

/-- Lines 43–46: the 401 response of the auth gate. -/
def authFailureResponse : Response :=
  ⟨401, JValue.obj
    [("error", JValue.str "Invalid or missing internal API key"),
     ("hint", JValue.str "Provide Authorization: Bearer <INTERNAL_API_KEY> or x-api-key, or api_key in query/body")]⟩

/-- Lines 28–47: `_check_internal_auth(req)`. -/
def check_internal_auth (cfg : Config) (req : Request) : Option Response :=
  if cfg.internalApiKey = "" then none
  else if req.method = "OPTIONS" ∨ req.path = "/health" then none
  else
    match providedOf req with
    | none => some authFailureResponse
    | some p =>
      if p = "" ∨ p ≠ cfg.internalApiKey then some authFailureResponse else none

/-- Lines 86–98: build `generation_config` from the `parameters` bag (the
four membership-guarded copies, `max_new_tokens` renamed to
`max_output_tokens`), then drop `None`-valued entries. -/
def mapParameters (parameters : List (String × JValue)) : List (String × JValue) :=
  ((match jlookup parameters "temperature" with
      | some v => [("temperature", v)]
      | none => [])
   ++ (match jlookup parameters "top_p" with
      | some v => [("top_p", v)]
      | none => [])
   ++ (match jlookup parameters "top_k" with
      | some v => [("top_k", v)]
      | none => [])
   ++ (match jlookup parameters "max_new_tokens" with
      | some v => [("max_output_tokens", v)]
      | none => [])).filter (fun kv => !(isNull kv.2))

/-- Argument triple of `model.generate_content(inputs, generation_config)`
together with the `genai.GenerativeModel(model_name)` argument. -/
structure UpstreamCall : Type where
  model : JValue
  inputs : String
  config : List (String × JValue)

/-- Outcome of the upstream call: an exception with message `msg`, or a
response object with `getattr(resp, 'text', None)` and an optional
`resp.to_dict()` payload. -/
inductive UpstreamResult : Type where
  | raises : String → UpstreamResult
  | returns : Option String → Option JValue → UpstreamResult

/-- Line 72: the 500 response when `GOOGLE_API_KEY` is unset. -/
def notConfiguredResponse : Response :=
  ⟨500, JValue.obj [("error", JValue.str "GOOGLE_API_KEY is not configured on the server")]⟩

/-- Line 81: the 400 response for empty `inputs`. -/
def missingInputsResponse : Response :=
  ⟨400, JValue.obj [("error", JValue.str "Missing 'inputs' parameter")]⟩

/-- Line 107: the 502 response when the upstream response has no text. -/
def emptyUpstreamResponse (raw : Option JValue) : Response :=
  ⟨502, JValue.obj [("error", JValue.str "Empty response"), ("raw", raw.getD JValue.null)]⟩

/-- Lines 109–119: the 200 response wrapping the upstream text. -/
def successResponse (t : String) : Response :=
  ⟨200, JValue.obj
    [("candidates", JValue.arr
        [JValue.obj
          [("content", JValue.obj
              [("parts", JValue.arr [JValue.obj [("text", JValue.str t)]]),
               ("role", JValue.str "model")])]]),
     ("text", JValue.str t)]⟩

/-- Line 84: the default prompt substituted in `random` mode. -/
def defaultStoryPrompt : String :=
  "Write a short, whimsical story suitable for kids."

/-- Lines 100–122: the `try` block translating the upstream outcome to a
response (`except` → 500 with the message, falsy text → 502, else 200). -/
def respondUpstream : UpstreamResult → Response
  | .raises msg => ⟨500, JValue.obj [("error", JValue.str msg)]⟩
  | .returns text raw =>
    match text with
    | none => emptyUpstreamResponse raw
    | some t => if t = "" then emptyUpstreamResponse raw else successResponse t

/-- Python `s.strip()`: drop whitespace from both ends (over the character
list, which is also how Python indexes strings). -/
def pyStrip (s : String) : String :=
  ⟨((s.toList.dropWhile Char.isWhitespace).reverse.dropWhile Char.isWhitespace).reverse⟩

/-- A string-typed field extraction, `(data.get(k) or d)`, defined only when
the resulting value is a string (Python would `.strip()` it next). -/
def strField (data : List (String × JValue)) (k d : String) : Option String :=
  match pyOr (jlookup data k) (JValue.str d) with
  | JValue.str s => some s
  | _ => none

/-- An object-typed field extraction, `(data.get(k) or {})`, defined only
when the resulting value is an object (Python would test membership next). -/
def objField (data : List (String × JValue)) (k : String) : Option (List (String × JValue)) :=
  match pyOr (jlookup data k) (JValue.obj []) with
  | JValue.obj kvs => some kvs
  | _ => none

/-- Lines 62–122: the `/api/generate` handler.  Returns the response paired
with the upstream call it issued (`none` = the provider was not invoked);
the outer `Option` is `none` only for requests whose body fields have types
on which the Python code would raise instead of responding. -/
def generate (cfg : Config) (upstream : UpstreamCall → UpstreamResult)
    (req : Request) : Option (Response × Option UpstreamCall) :=
  if req.method = "OPTIONS" then some (⟨204, JValue.str ""⟩, none)
  else
    match check_internal_auth cfg req with
    | some err => some (err, none)
    | none =>
      if cfg.googleApiKey = "" then some (notConfiguredResponse, none)
      else
        let data := bodyDict req.body
        match strField data "mode" "prompt" with
        | none => none
        | some m =>
          match strField data "inputs" "" with
          | none => none
          | some i =>
            let mode := pyStrip m
            let inputs := pyStrip i
            if mode ≠ "random" ∧ inputs = "" then some (missingInputsResponse, none)
            else
              let inputs2 := if mode = "random" ∧ inputs = "" then defaultStoryPrompt else inputs
              let model_name := pyOr (jlookup data "model") (JValue.str "gemini-1.5-flash-latest")
              match objField data "parameters" with
              | some parameters =>
                let call : UpstreamCall := ⟨model_name, inputs2, mapParameters parameters⟩
                some (respondUpstream (upstream call), some call)
              | none => none

/-- Value of an optional lookup after dropping a JSON `null` (absent and
null-valued keys both contribute nothing). -/
def dropNull (o : Option JValue) : Option JValue :=
  match o with
  | some v => if isNull v then none else some v
  | none => none

/-- The entry a recognized input key contributes to the mapped output:
nothing when the key is absent or null-valued, else the renamed binding. -/
def optEntry (k : String) (o : Option JValue) : List (String × JValue) :=
  match dropNull o with
  | some v => [(k, v)]
  | none => []

/-- Specification-side parameter mapper, transcribed from the contract:
exactly the recognized keys present with a non-null value, `max_new_tokens`
renamed to `max_output_tokens`, everything else ignored. -/
def mapParametersSpec (ps : List (String × JValue)) : List (String × JValue) :=
  optEntry "temperature" (jlookup ps "temperature")
    ++ optEntry "top_p" (jlookup ps "top_p")
    ++ optEntry "top_k" (jlookup ps "top_k")
    ++ optEntry "max_output_tokens" (jlookup ps "max_new_tokens")

theorem mapParameters_eq_spec (ps : List (String × JValue)) :
    mapParameters ps = mapParametersSpec ps := by
  unfold mapParameters mapParametersSpec optEntry dropNull
  cases jlookup ps "temperature" <;> cases jlookup ps "top_p" <;>
    cases jlookup ps "top_k" <;> cases jlookup ps "max_new_tokens" <;>
    simp [List.filter_append, List.filter_cons] <;>
    (repeat' split) <;> simp_all

theorem mem_optEntry {k : String} {o : Option JValue} {kv : String × JValue}
    (h : kv ∈ optEntry k o) : kv.1 = k ∧ isNull kv.2 = false := by
  unfold optEntry dropNull at h
  cases o with
  | none => simp at h
  | some v =>
    cases hv : isNull v
    · simp [hv] at h
      simp [h, hv]
    · simp [hv] at h

/-- C4: the Parameter Mapper keeps exactly the recognized, non-null keys
(`max_new_tokens` renamed to `max_output_tokens`), never emits a null value,
and on the two concrete bags of the spec produces exactly the stated
outputs. -/
theorem mapParameters_correct :
    (∀ ps : List (String × JValue), mapParameters ps = mapParametersSpec ps) ∧
    (∀ ps : List (String × JValue), ∀ kv ∈ mapParameters ps,
      isNull kv.2 = false ∧
        (kv.1 = "temperature" ∨ kv.1 = "top_p" ∨ kv.1 = "top_k" ∨
          kv.1 = "max_output_tokens")) ∧
    mapParameters
        [("temperature", JValue.num (1/2)), ("max_new_tokens", JValue.num 100),
         ("unknown_key", JValue.str "x")]
      = [("temperature", JValue.num (1/2)), ("max_output_tokens", JValue.num 100)] ∧
    mapParameters [("top_p", JValue.null)] = [] := by
  refine ⟨mapParameters_eq_spec, ?_, rfl, rfl⟩
  intro ps kv hmem
  rw [mapParameters_eq_spec, mapParametersSpec] at hmem
  simp only [List.mem_append] at hmem
  rcases hmem with ((h | h) | h) | h <;>
    rcases mem_optEntry h with ⟨h1, h2⟩ <;> simp [h1, h2]

theorem mapParameters_correct_witness :
    isNull (JValue.num 3) = false ∧
      ("top_k" = "temperature" ∨ "top_k" = "top_p" ∨ "top_k" = "top_k" ∨
        "top_k" = "max_output_tokens") :=
  mapParameters_correct.2.1 [("top_k", JValue.num 3)] ("top_k", JValue.num 3)
    (List.Mem.head _)

/-- C1: with the internal secret configured, on a non-OPTIONS request to a
path other than `/health` in which none of the four credential channels
supplies a (non-empty) credential, the auth gate returns the 401 response. -/
theorem auth_gate_401_no_credentials (cfg : Config) (req : Request)
    (hkey : cfg.internalApiKey ≠ "") (hm : req.method ≠ "OPTIONS")
    (hp : req.path ≠ "/health")
    (hb : bearerOf req = none ∨ bearerOf req = some "")
    (hx : req.xApiKeyHeader = none ∨ req.xApiKeyHeader = some "")
    (hq : req.queryApiKey = none ∨ req.queryApiKey = some "")
    (hk : bodyKeyOf req = none ∨ bodyKeyOf req = some "") :
    check_internal_auth cfg req = some authFailureResponse ∧
      authFailureResponse.status = 401 := by
  refine ⟨?_, rfl⟩
  unfold check_internal_auth
  rw [if_neg hkey, if_neg (not_or.mpr ⟨hm, hp⟩)]
  have hprov : providedOf req = none ∨ providedOf req = some "" := by
    unfold providedOf
    rcases hb with hb | hb <;> rcases hx with hx | hx <;>
      rcases hq with hq | hq <;> rcases hk with hk | hk <;>
      simp [pyOrS, hb, hx, hq, hk]
  rcases hprov with h | h <;> simp [h]

theorem auth_gate_401_no_credentials_witness :
    check_internal_auth ⟨"g", "sek"⟩
        ⟨"POST", "/api/generate", none, none, none, none⟩ =
      some authFailureResponse ∧ authFailureResponse.status = 401 :=
  auth_gate_401_no_credentials ⟨"g", "sek"⟩
    ⟨"POST", "/api/generate", none, none, none, none⟩
    (by decide) (by decide) (by decide)
    (Or.inl rfl) (Or.inl rfl) (Or.inl rfl) (Or.inl rfl)

/-- C2: with the internal secret configured, a request carrying the secret
in exactly one of the four channels while the other three are absent passes
the auth gate, for each of the four channels. -/
theorem auth_gate_passes_single_channel (cfg : Config) (req : Request)
    (hkey : cfg.internalApiKey ≠ "")
    (h :
      (bearerOf req = some cfg.internalApiKey ∧ req.xApiKeyHeader = none ∧
        req.queryApiKey = none ∧ bodyKeyOf req = none) ∨
      (bearerOf req = none ∧ req.xApiKeyHeader = some cfg.internalApiKey ∧
        req.queryApiKey = none ∧ bodyKeyOf req = none) ∨
      (bearerOf req = none ∧ req.xApiKeyHeader = none ∧
        req.queryApiKey = some cfg.internalApiKey ∧ bodyKeyOf req = none) ∨
      (bearerOf req = none ∧ req.xApiKeyHeader = none ∧
        req.queryApiKey = none ∧ bodyKeyOf req = some cfg.internalApiKey)) :
    check_internal_auth cfg req = none := by
  unfold check_internal_auth
  rw [if_neg hkey]
  by_cases hopt : req.method = "OPTIONS" ∨ req.path = "/health"
  · rw [if_pos hopt]
  · rw [if_neg hopt]
    have hprov : providedOf req = some cfg.internalApiKey := by
      unfold providedOf
      rcases h with ⟨h1, h2, h3, h4⟩ | ⟨h1, h2, h3, h4⟩ | ⟨h1, h2, h3, h4⟩ |
        ⟨h1, h2, h3, h4⟩ <;> simp [pyOrS, h1, h2, h3, h4, hkey]
    rw [hprov]
    simp [hkey]

theorem auth_gate_passes_single_channel_witness :
    check_internal_auth ⟨"g", "sek"⟩
      ⟨"POST", "/api/generate", none, none, none,
        some [("api_key", JValue.str "sek")]⟩ = none :=
  auth_gate_passes_single_channel ⟨"g", "sek"⟩
    ⟨"POST", "/api/generate", none, none, none,
      some [("api_key", JValue.str "sek")]⟩
    (by decide) (Or.inr (Or.inr (Or.inr ⟨rfl, rfl, rfl, rfl⟩)))

/-- C3: the candidate secret is the first non-empty value in the priority
order bearer token, `x-api-key` header, `api_key` query parameter, `api_key`
body field; in particular a non-empty but wrong bearer token yields the 401
response even when a lower-priority channel carries the correct secret. -/
theorem auth_gate_priority (cfg : Config) (req : Request) :
    (∀ b, bearerOf req = some b → b ≠ "" → providedOf req = some b) ∧
    ((bearerOf req = none ∨ bearerOf req = some "") →
      ∀ x, req.xApiKeyHeader = some x → x ≠ "" → providedOf req = some x) ∧
    ((bearerOf req = none ∨ bearerOf req = some "") →
      (req.xApiKeyHeader = none ∨ req.xApiKeyHeader = some "") →
      ∀ q, req.queryApiKey = some q → q ≠ "" → providedOf req = some q) ∧
    ((bearerOf req = none ∨ bearerOf req = some "") →
      (req.xApiKeyHeader = none ∨ req.xApiKeyHeader = some "") →
      (req.queryApiKey = none ∨ req.queryApiKey = some "") →
      ∀ k, bodyKeyOf req = some k → providedOf req = some k) ∧
    (cfg.internalApiKey ≠ "" → req.method ≠ "OPTIONS" → req.path ≠ "/health" →
      ∀ b, bearerOf req = some b → b ≠ "" → b ≠ cfg.internalApiKey →
        (req.xApiKeyHeader = some cfg.internalApiKey ∨
          req.queryApiKey = some cfg.internalApiKey ∨
          bodyKeyOf req = some cfg.internalApiKey) →
        check_internal_auth cfg req = some authFailureResponse) := by
  refine ⟨?_, ?_, ?_, ?_, ?_⟩
  · intro b hb hne
    unfold providedOf
    simp [pyOrS, hb, hne]
  · intro hb x hx hne
    unfold providedOf
    rcases hb with hb | hb <;> simp [pyOrS, hb, hx, hne]
  · intro hb hx q hq hne
    unfold providedOf
    rcases hb with hb | hb <;> rcases hx with hx | hx <;>
      simp [pyOrS, hb, hx, hq, hne]
  · intro hb hx hq k hk
    unfold providedOf
    rcases hb with hb | hb <;> rcases hx with hx | hx <;>
      rcases hq with hq | hq <;> simp [pyOrS, hb, hx, hq, hk]
  · intro hkey hm hp b hb hne hwrong _
    have hprov : providedOf req = some b := by
      unfold providedOf
      simp [pyOrS, hb, hne]
    unfold check_internal_auth
    rw [if_neg hkey, if_neg (not_or.mpr ⟨hm, hp⟩), hprov]
    simp [hwrong]

theorem auth_gate_priority_witness :
    check_internal_auth ⟨"g", "sek"⟩
      ⟨"POST", "/api/generate", some "Bearer wrong", none, some "sek", none⟩ =
      some authFailureResponse :=
  (auth_gate_priority ⟨"g", "sek"⟩
      ⟨"POST", "/api/generate", some "Bearer wrong", none, some "sek", none⟩).2.2.2.2
    (by decide) (by decide) (by decide) "wrong" (by decide) (by decide) (by decide)
    (Or.inr (Or.inl rfl))

theorem generate_missing_inputs_aux (cfg : Config)
    (upstream : UpstreamCall → UpstreamResult) (req : Request) (m i : String)
    (hm : req.method = "POST")
    (hauth : check_internal_auth cfg req = none)
    (hkey : cfg.googleApiKey ≠ "")
    (hmode : strField (bodyDict req.body) "mode" "prompt" = some m)
    (hmr : pyStrip m ≠ "random")
    (hinp : strField (bodyDict req.body) "inputs" "" = some i)
    (hie : pyStrip i = "") :
    generate cfg upstream req = some (missingInputsResponse, none) := by
  simp [generate, hm, hauth, hkey, hmode, hinp, hmr, hie]

/-- C5: a POST request that passes the auth gate, with the provider key
configured, whose stripped mode is not `"random"` and whose stripped inputs
are empty, gets the 400 missing-inputs response, and the upstream provider
is not invoked (for every upstream oracle). -/
theorem generate_missing_inputs_400 (cfg : Config)
    (upstream : UpstreamCall → UpstreamResult) (req : Request) (m i : String)
    (hm : req.method = "POST")
    (hauth : check_internal_auth cfg req = none)
    (hkey : cfg.googleApiKey ≠ "")
    (hmode : strField (bodyDict req.body) "mode" "prompt" = some m)
    (hmr : pyStrip m ≠ "random")
    (hinp : strField (bodyDict req.body) "inputs" "" = some i)
    (hie : pyStrip i = "") :
    generate cfg upstream req = some (missingInputsResponse, none) ∧
      missingInputsResponse.status = 400 :=
  ⟨generate_missing_inputs_aux cfg upstream req m i hm hauth hkey hmode hmr hinp hie, rfl⟩

theorem generate_missing_inputs_400_witness :
    generate ⟨"g", ""⟩ (fun _ => UpstreamResult.raises "boom")
        ⟨"POST", "/api/generate", none, none, none,
          some [("mode", JValue.str "prompt")]⟩ =
      some (missingInputsResponse, none) ∧ missingInputsResponse.status = 400 :=
  generate_missing_inputs_400 ⟨"g", ""⟩ (fun _ => UpstreamResult.raises "boom")
    ⟨"POST", "/api/generate", none, none, none,
      some [("mode", JValue.str "prompt")]⟩
    "prompt" "" rfl rfl (by decide) rfl (by decide) rfl rfl

/-- C6: a POST request that passes the auth gate, with the provider key
configured, whose stripped mode is `"random"` and whose stripped inputs are
empty, leads to an upstream invocation whose inputs are the fixed default
story prompt. -/
theorem generate_random_default (cfg : Config)
    (upstream : UpstreamCall → UpstreamResult) (req : Request) (m i : String)
    (ps : List (String × JValue))
    (hm : req.method = "POST")
    (hauth : check_internal_auth cfg req = none)
    (hkey : cfg.googleApiKey ≠ "")
    (hmode : strField (bodyDict req.body) "mode" "prompt" = some m)
    (hmr : pyStrip m = "random")
    (hinp : strField (bodyDict req.body) "inputs" "" = some i)
    (hie : pyStrip i = "")
    (hps : objField (bodyDict req.body) "parameters" = some ps) :
    ∃ call : UpstreamCall,
      generate cfg upstream req =
        some (respondUpstream (upstream call), some call) ∧
      call.inputs = defaultStoryPrompt ∧
      defaultStoryPrompt = "Write a short, whimsical story suitable for kids." := by
  refine ⟨⟨pyOr (jlookup (bodyDict req.body) "model")
      (JValue.str "gemini-1.5-flash-latest"), defaultStoryPrompt,
      mapParameters ps⟩, ?_, rfl, rfl⟩
  simp [generate, hm, hauth, hkey, hmode, hinp, hmr, hie, hps]

theorem generate_random_default_witness :
    ∃ call : UpstreamCall,
      generate ⟨"g", ""⟩ (fun _ => UpstreamResult.returns (some "ok") none)
          ⟨"POST", "/api/generate", none, none, none,
            some [("mode", JValue.str "random")]⟩ =
        some (respondUpstream
          ((fun _ => UpstreamResult.returns (some "ok") none) call), some call) ∧
      call.inputs = defaultStoryPrompt ∧
      defaultStoryPrompt = "Write a short, whimsical story suitable for kids." :=
  generate_random_default ⟨"g", ""⟩
    (fun _ => UpstreamResult.returns (some "ok") none)
    ⟨"POST", "/api/generate", none, none, none,
      some [("mode", JValue.str "random")]⟩
    "random" "" [] rfl rfl (by decide) rfl (by decide) rfl rfl rfl

/-- C7: a non-OPTIONS request that passes the auth gate, with the provider
key unset, gets the 500 not-configured response for every request body —
including bodies that would otherwise trigger the 400 validation error. -/
theorem generate_not_configured_500 (cfg : Config)
    (upstream : UpstreamCall → UpstreamResult) (req : Request)
    (hm : req.method = "POST")
    (hauth : check_internal_auth cfg req = none)
    (hkey : cfg.googleApiKey = "") :
    generate cfg upstream req = some (notConfiguredResponse, none) ∧
      notConfiguredResponse.status = 500 := by
  refine ⟨?_, rfl⟩
  simp [generate, hm, hauth, hkey]

theorem generate_not_configured_500_witness :
    generate ⟨"", "sek"⟩ (fun _ => UpstreamResult.raises "boom")
        ⟨"POST", "/api/generate", some "Bearer sek", none, none, none⟩ =
      some (notConfiguredResponse, none) ∧ notConfiguredResponse.status = 500 :=
  generate_not_configured_500 ⟨"", "sek"⟩ (fun _ => UpstreamResult.raises "boom")
    ⟨"POST", "/api/generate", some "Bearer sek", none, none, none⟩
    rfl (by rfl) rfl

/-- C8: a POST request whose body is absent or unparseable is handled as an
empty object, so (auth passing, provider key configured) it falls into the
default-"prompt" missing-inputs 400, not a parse-failure error. -/
theorem generate_permissive_body_parse (cfg : Config)
    (upstream : UpstreamCall → UpstreamResult) (req : Request)
    (hm : req.method = "POST") (hb : req.body = none)
    (hauth : check_internal_auth cfg req = none)
    (hkey : cfg.googleApiKey ≠ "") :
    bodyDict req.body = [] ∧
      generate cfg upstream req = some (missingInputsResponse, none) ∧
      missingInputsResponse.status = 400 := by
  refine ⟨by simp [bodyDict, hb], ?_, rfl⟩
  exact generate_missing_inputs_aux cfg upstream req "prompt" ""
    hm hauth hkey (by simp [hb, bodyDict, strField, jlookup, pyOr])
    (by decide) (by simp [hb, bodyDict, strField, jlookup, pyOr]) rfl

theorem generate_permissive_body_parse_witness :
    bodyDict (none : Option (List (String × JValue))) = [] ∧
      generate ⟨"g", ""⟩ (fun _ => UpstreamResult.raises "boom")
          ⟨"POST", "/api/generate", none, none, none, none⟩ =
        some (missingInputsResponse, none) ∧
      missingInputsResponse.status = 400 :=
  generate_permissive_body_parse ⟨"g", ""⟩
    (fun _ => UpstreamResult.raises "boom")
    ⟨"POST", "/api/generate", none, none, none, none⟩
    rfl rfl rfl (by decide)

/-- C9: whenever the handler did invoke the upstream provider and the call
completed without raising but carried no extractable text (absent or empty),
the handler's response is exactly the 502 empty-response error carrying the
raw payload when available. -/
theorem generate_empty_upstream_502 (cfg : Config)
    (upstream : UpstreamCall → UpstreamResult) (req : Request)
    (r : Response) (call : UpstreamCall) (text : Option String)
    (raw : Option JValue)
    (hg : generate cfg upstream req = some (r, some call))
    (hu : upstream call = UpstreamResult.returns text raw)
    (ht : text = none ∨ text = some "") :
    r = emptyUpstreamResponse raw ∧ r.status = 502 := by
  have hr : r = respondUpstream (upstream call) := by
    unfold generate at hg
    by_cases hopt : req.method = "OPTIONS"
    · rw [if_pos hopt] at hg
      simp at hg
    · rw [if_neg hopt] at hg
      cases hca : check_internal_auth cfg req with
      | some err => rw [hca] at hg; simp at hg
      | none =>
        rw [hca] at hg
        simp only [] at hg
        by_cases hgk : cfg.googleApiKey = ""
        · rw [if_pos hgk] at hg
          simp at hg
        · rw [if_neg hgk] at hg
          cases hms : strField (bodyDict req.body) "mode" "prompt" with
          | none => rw [hms] at hg; simp at hg
          | some m =>
            rw [hms] at hg
            simp only [] at hg
            cases hins : strField (bodyDict req.body) "inputs" "" with
            | none => rw [hins] at hg; simp at hg
            | some i =>
              rw [hins] at hg
              simp only [] at hg
              by_cases hmi : pyStrip m ≠ "random" ∧ pyStrip i = ""
              · rw [if_pos hmi] at hg
                simp at hg
              · rw [if_neg hmi] at hg
                cases hps : objField (bodyDict req.body) "parameters" with
                | none => rw [hps] at hg; simp at hg
                | some parameters =>
                  rw [hps] at hg
                  simp only [Option.some.injEq, Prod.mk.injEq] at hg
                  obtain ⟨h1, h2⟩ := hg
                  subst h2
                  exact h1.symm
  rcases ht with h | h <;> (subst h; rw [hr, hu]; exact ⟨rfl, rfl⟩)

theorem generate_empty_upstream_502_witness :
    emptyUpstreamResponse (some (JValue.str "p")) =
        emptyUpstreamResponse (some (JValue.str "p")) ∧
      (emptyUpstreamResponse (some (JValue.str "p"))).status = 502 :=
  generate_empty_upstream_502 ⟨"g", ""⟩
    (fun _ => UpstreamResult.returns none (some (JValue.str "p")))
    ⟨"POST", "/api/generate", none, none, none,
      some [("inputs", JValue.str "hi")]⟩
    (emptyUpstreamResponse (some (JValue.str "p")))
    ⟨JValue.str "gemini-1.5-flash-latest", "hi", []⟩
    none (some (JValue.str "p")) rfl rfl (Or.inl rfl)

/-- C10: the mode field is never validated: under any stripped mode other
than `"random"` the handler behaves as for `"prompt"` — empty stripped
inputs yield the 400 missing-inputs response with no upstream call, and
non-empty stripped inputs are forwarded unchanged to the upstream provider
with no unknown-mode error. -/
theorem generate_mode_not_validated (cfg : Config)
    (upstream : UpstreamCall → UpstreamResult) (req : Request) (m i : String)
    (ps : List (String × JValue))
    (hm : req.method = "POST")
    (hauth : check_internal_auth cfg req = none)
    (hkey : cfg.googleApiKey ≠ "")
    (hmode : strField (bodyDict req.body) "mode" "prompt" = some m)
    (hmr : pyStrip m ≠ "random")
    (hinp : strField (bodyDict req.body) "inputs" "" = some i)
    (hps : objField (bodyDict req.body) "parameters" = some ps) :
    (pyStrip i = "" →
      generate cfg upstream req = some (missingInputsResponse, none)) ∧
    (pyStrip i ≠ "" →
      ∃ call : UpstreamCall,
        generate cfg upstream req =
          some (respondUpstream (upstream call), some call) ∧
        call.inputs = pyStrip i ∧ call.config = mapParameters ps) := by
  constructor
  · intro hie
    simp [generate, hm, hauth, hkey, hmode, hinp, hmr, hie]
  · intro hie
    refine ⟨⟨pyOr (jlookup (bodyDict req.body) "model")
        (JValue.str "gemini-1.5-flash-latest"), pyStrip i,
        mapParameters ps⟩, ?_, rfl, rfl⟩
    simp [generate, hm, hauth, hkey, hmode, hinp, hmr, hie, hps]

theorem generate_mode_not_validated_witness :
    ∃ call : UpstreamCall,
      generate ⟨"g", ""⟩ (fun _ => UpstreamResult.returns (some "ok") none)
          ⟨"POST", "/api/generate", none, none, none,
            some [("mode", JValue.str "story"), ("inputs", JValue.str "tell")]⟩ =
        some (respondUpstream
          ((fun _ => UpstreamResult.returns (some "ok") none) call), some call) ∧
      call.inputs = pyStrip "tell" ∧ call.config = mapParameters [] :=
  (generate_mode_not_validated ⟨"g", ""⟩
    (fun _ => UpstreamResult.returns (some "ok") none)
    ⟨"POST", "/api/generate", none, none, none,
      some [("mode", JValue.str "story"), ("inputs", JValue.str "tell")]⟩
    "story" "tell" [] rfl rfl (by decide) rfl (by decide) rfl rfl).2 (by decide)

end OpenTale
